import Mathlib

/-!
# PharmAccess Explorer — verification of the clustering and interaction core

A shallow embedding of the map core of this repository
(`src/frontend/src/App.tsx`): the GeoJSON source configuration, the layer
paint expressions, the popup content builder, the pointer event handlers,
the surface-dimension retry at mount, the WebGL context-loss handlers and
the environment-token guard, together with a model of the spatial
clusterer whose behaviour the spec fixes (the algorithm itself lives in
the third-party map engine, not in the repository sources).
-/

namespace PharmAccess

/-- A geocoded point record: an identifier and a coordinate
(longitude, latitude), modelled with rationals. -/
structure PointRecord where
  id : Nat
  lng : Rat
  lat : Rat
deriving DecidableEq, Repr

/-- The GeoJSON source options set in `App.tsx` for the `pharmacies`
source: `cluster: true`, `clusterMaxZoom: 12`, `clusterRadius: 50`,
`generateId: true`. -/
structure GeoJSONSourceConfig where
  cluster : Bool
  clusterMaxZoom : Rat
  clusterRadius : Rat
  generateId : Bool
deriving DecidableEq, Repr

/-- The `pharmacies` source configuration exactly as written in
`currentMap.addSource('pharmacies', ...)`. -/
def pharmaciesSourceConfig : GeoJSONSourceConfig :=
  { cluster := true, clusterMaxZoom := 12, clusterRadius := 50, generateId := true }

/-- Modelled from the spec: the clustering algorithm is implemented by the
third-party map engine and is not part of the repository sources; §4.2
specifies it as connected-component grouping under a proximity relation.
A new point is merged with every existing component that contains some
point near it (transitive grouping), all other components are kept. -/
def insertPoint (near : PointRecord → PointRecord → Bool)
    (p : PointRecord) (comps : List (List PointRecord)) : List (List PointRecord) :=
  (p :: (comps.filter (fun c => c.any (near p))).flatten) ::
    comps.filter (fun c => !c.any (near p))

/-- Modelled from the spec: the connected components of a point set under
the proximity relation `near`, built by folding `insertPoint`. -/
def components (near : PointRecord → PointRecord → Bool)
    (pts : List PointRecord) : List (List PointRecord) :=
  pts.foldr (insertPoint near) []

/-- Modelled from the spec (§4.2): `cluster(points, zoom, maxClusterZoom,
clusterRadiusPx)` returns every point as a single when
`zoom ≥ maxClusterZoom`; below the threshold it groups points into the
connected components of the proximity relation at that zoom, emitting a
component of size 1 as a single and a larger component as an aggregate.
The proximity relation (screen distance at the current zoom at most
`clusterRadiusPx`) is abstracted as the parameter `near`. -/
def cluster (pts : List PointRecord) (zoom maxClusterZoom : Rat)
    (near : PointRecord → PointRecord → Bool) :
    List (List PointRecord) × List PointRecord :=
  if maxClusterZoom ≤ zoom then ([], pts)
  else
    ((components near pts).filter (fun c => 2 ≤ c.length),
     ((components near pts).filter (fun c => c.length = 1)).flatten)

/-- Flattening a filtered list and its complement together is a
permutation of flattening the whole list. -/
theorem flatten_filter_append_perm {α : Type} (f : List α → Bool) :
    ∀ L : List (List α),
      ((L.filter f).flatten ++ (L.filter (fun c => !f c)).flatten).Perm L.flatten := by
  intro L
  induction L with
  | nil => simp
  | cons c cs ih =>
    by_cases hc : f c = true
    · simp only [List.filter_cons, hc, Bool.not_true, List.flatten_cons]
      simpa using (List.Perm.append_left c ih)
    · have hc' : f c = false := by simpa using hc
      have key : ∀ u v : List α, (u ++ (c ++ v)).Perm (c ++ (u ++ v)) := by
        intro u v
        have e1 : u ++ (c ++ v) = (u ++ c) ++ v := by rw [List.append_assoc]
        have e2 : (c ++ u) ++ v = c ++ (u ++ v) := by rw [List.append_assoc]
        rw [e1]
        exact e2 ▸ List.Perm.append_right v List.perm_append_comm
      simp only [List.filter_cons, hc', Bool.not_false, Bool.false_eq_true, if_false,
        if_true, List.flatten_cons]
      exact (key _ _).trans (List.Perm.append_left c ih)

/-- Inserting a point into a component list flattens to the point together
with a permutation of the old flattening. -/
theorem insertPoint_flatten_perm (near : PointRecord → PointRecord → Bool)
    (p : PointRecord) (comps : List (List PointRecord)) :
    (insertPoint near p comps).flatten.Perm (p :: comps.flatten) := by
  unfold insertPoint
  simp only [List.flatten_cons]
  exact (flatten_filter_append_perm (fun c => c.any (near p)) comps).cons p

/-- The connected components of a point set flatten to a permutation of
the point set: no point is dropped and no point is duplicated. -/
theorem components_flatten_perm (near : PointRecord → PointRecord → Bool)
    (pts : List PointRecord) : (components near pts).flatten.Perm pts := by
  induction pts with
  | nil => simp [components]
  | cons p ps ih =>
    have h1 := insertPoint_flatten_perm near p (components near ps)
    exact h1.trans (ih.cons p)

/-- Every component produced by the clusterer is nonempty. -/
theorem components_ne_nil (near : PointRecord → PointRecord → Bool)
    (pts : List PointRecord) : ∀ c ∈ components near pts, c ≠ [] := by
  induction pts with
  | nil => simp [components]
  | cons p ps ih =>
    intro c hc
    simp only [components, List.foldr_cons] at hc
    unfold insertPoint at hc
    rcases List.mem_cons.mp hc with h | h
    · subst h; simp
    · exact ih c (List.mem_of_mem_filter h)

/-- On a list of nonempty components, filtering for size one is filtering
for the complement of size at least two. -/
theorem filter_length_one_eq_not_ge_two (L : List (List PointRecord))
    (hne : ∀ c ∈ L, c ≠ []) :
    L.filter (fun c => c.length = 1) = L.filter (fun c => !(decide (2 ≤ c.length))) := by
  apply List.filter_congr
  intro c hc
  have h1 : c ≠ [] := hne c hc
  have h2 : 0 < c.length := List.length_pos.mpr h1
  rw [← decide_not]
  apply decide_eq_decide.mpr
  omega

/-- The clusterer output, aggregates flattened to their members followed by
the singles, is a permutation of the input point set. -/
theorem cluster_flatten_perm (pts : List PointRecord) (zoom m : Rat)
    (near : PointRecord → PointRecord → Bool) :
    ((cluster pts zoom m near).1.flatten ++ (cluster pts zoom m near).2).Perm pts := by
  unfold cluster
  by_cases h : m ≤ zoom
  · simp [h]
  · rw [if_neg h]
    simp only
    rw [filter_length_one_eq_not_ge_two (components near pts) (components_ne_nil near pts)]
    exact (flatten_filter_append_perm (fun c => decide (2 ≤ c.length))
      (components near pts)).trans (components_flatten_perm near pts)

/-- C2: for every point set (without duplicate records) and every view
state, the clusterer output is a total and disjoint partition: the
aggregate members together with the singles are a permutation of the
input, every input point occurs exactly once in the combined output, and
nothing else occurs in it. -/
theorem cluster_partition_total_disjoint (pts : List PointRecord) (zoom m : Rat)
    (near : PointRecord → PointRecord → Bool) (hnd : pts.Nodup) :
    ((cluster pts zoom m near).1.flatten ++ (cluster pts zoom m near).2).Perm pts ∧
    (∀ p ∈ pts,
      ((cluster pts zoom m near).1.flatten ++ (cluster pts zoom m near).2).count p = 1) ∧
    (∀ p, p ∉ pts →
      ((cluster pts zoom m near).1.flatten ++ (cluster pts zoom m near).2).count p = 0) := by
  have hperm := cluster_flatten_perm pts zoom m near
  refine ⟨hperm, ?_, ?_⟩
  · intro p hp
    rw [hperm.count_eq]
    exact List.count_eq_one_of_mem hnd hp
  · intro p hp
    rw [hperm.count_eq]
    exact List.count_eq_zero.mpr hp

/-- C2 witness: three concrete distinct points, two of them co-located,
clustered at zoom 4 with threshold 12 under coordinate-equality proximity:
the first point occurs exactly once across aggregates and singles. -/
theorem cluster_partition_total_disjoint_witness :
    ((cluster [⟨0, 0, 0⟩, ⟨1, 5, 5⟩, ⟨2, 0, 0⟩] 4 12
        (fun p q => p.lng == q.lng && p.lat == q.lat)).1.flatten ++
      (cluster [⟨0, 0, 0⟩, ⟨1, 5, 5⟩, ⟨2, 0, 0⟩] 4 12
        (fun p q => p.lng == q.lng && p.lat == q.lat)).2).count ⟨0, 0, 0⟩ = 1 :=
  (cluster_partition_total_disjoint [⟨0, 0, 0⟩, ⟨1, 5, 5⟩, ⟨2, 0, 0⟩] 4 12
    (fun p q => p.lng == q.lng && p.lat == q.lat) (by decide)).2.1 ⟨0, 0, 0⟩ (by decide)

/-- C1: at or above the configured `clusterMaxZoom` (12, from the
`pharmacies` source options) the clusterer returns every point as a
single: the aggregate set is empty and the singles are exactly the input
points. -/
theorem cluster_above_maxZoom_all_singles
    (pts : List PointRecord) (zoom : Rat) (near : PointRecord → PointRecord → Bool)
    (h : pharmaciesSourceConfig.clusterMaxZoom ≤ zoom) :
    pharmaciesSourceConfig.clusterMaxZoom = 12 ∧
    cluster pts zoom pharmaciesSourceConfig.clusterMaxZoom near = ([], pts) := by
  refine ⟨rfl, ?_⟩
  unfold cluster
  rw [if_pos h]

/-- C1 witness: at zoom exactly 12 with two concrete points that are near
each other, no cluster aggregate is produced and both points come back as
singles. -/
theorem cluster_above_maxZoom_all_singles_witness :
    cluster [⟨0, 1, 2⟩, ⟨1, 1, 2⟩] 12 pharmaciesSourceConfig.clusterMaxZoom
      (fun _ _ => true) = ([], [⟨0, 1, 2⟩, ⟨1, 1, 2⟩]) :=
  (cluster_above_maxZoom_all_singles [⟨0, 1, 2⟩, ⟨1, 1, 2⟩] 12
    (fun _ _ => true) (by norm_num [pharmaciesSourceConfig])).2

/-- The feature properties the popup builders read in `App.tsx`:
`name`, `full_address`, `address`, `city`, `state`. A missing property is
`none`; JavaScript treats both a missing property and an empty string as
falsy, which `jsTruthy` captures. -/
structure Props where
  name : Option String
  full_address : Option String
  address : Option String
  city : Option String
  state : Option String
deriving DecidableEq, Repr

/-- JavaScript truthiness of an optional string: absent (`undefined` or
`null`) and the empty string are falsy. -/
def jsTruthy : Option String → Bool
  | none => false
  | some s => !(s == "")

/-- The JavaScript expression `a || b` for an optional string `a` and a
string default `b`. -/
def jsOrString (a : Option String) (b : String) : String :=
  if jsTruthy a then a.getD "" else b

/-- The expression `[props.address, props.city, props.state].filter(Boolean).join(', ')`
from the popup builders: keep the present, nonempty parts and join them
with a comma and a space. -/
def assembledAddress (p : Props) : String :=
  String.intercalate ", "
    (([p.address, p.city, p.state].filterMap id).filter (fun s => !(s == "")))

/-- `const name = props.name || 'Unknown Pharmacy'` from the popup
builders. -/
def displayName (p : Props) : String := jsOrString p.name "Unknown Pharmacy"

/-- `const address = props.full_address || [...].filter(Boolean).join(', ') || 'Address not available'`
from the popup builders. -/
def displayAddress (p : Props) : String :=
  jsOrString p.full_address (jsOrString (some (assembledAddress p)) "Address not available")

/-- The popup HTML template text before the interpolated name. -/
def htmlBeforeName : String :=
  "\n          <div style=\"padding: 8px; min-width: 200px;\">\n            <strong style=\"font-size: 14px; display: block; margin-bottom: 4px;\">"

/-- The popup HTML template text between the interpolated name and the
interpolated address. -/
def htmlBetween : String :=
  "</strong>\n            <span style=\"color: #666; font-size: 12px;\">"

/-- The popup HTML template text after the interpolated address. -/
def htmlAfterAddress : String :=
  "</span>\n          </div>\n        "

/-- The popup HTML template literal of `App.tsx` with the `name` and
`address` values interpolated directly into the markup. The hover handler
and the click handler build character-identical templates, so a single
definition models both. -/
def popupContentFor (name address : String) : String :=
  htmlBeforeName ++ name ++ htmlBetween ++ address ++ htmlAfterAddress

/-- The popup content built from a feature's properties, as in both the
`mouseenter` and the `click` handler for `unclustered-point`. -/
def popupContent (p : Props) : String :=
  popupContentFor (displayName p) (displayAddress p)

/-- A rendered feature as delivered to an event handler: the
`cluster_id` property when the feature is a cluster, the geometry
coordinates, and the point properties. -/
structure Feature where
  clusterId : Option Nat
  coord : Rat × Rat
  props : Props
deriving DecidableEq, Repr

/-- A command the event handlers can issue against the view state: an
animated `easeTo`, a hard `jumpTo` (never used by this code, present to
express that the transition is animated), or surfacing an error to the
user (never used by this code). -/
inductive MapCmd where
  | easeTo (center : Rat × Rat) (zoom : Rat)
  | jumpTo (center : Rat × Rat) (zoom : Rat)
  | showErrorToUser (msg : String)
deriving DecidableEq, Repr

/-- The `click` handler for the `clusters` layer in `App.tsx`: return if
no features were hit; otherwise read `cluster_id` from the first feature
and resolve its expansion zoom; on error or an absent zoom, return
without doing anything; otherwise ease the view to the feature's
coordinates at the expansion zoom. `getExp` models the engine's
`getClusterExpansionZoom` callback result, `none` covering an error as
well as an `undefined` or `null` zoom (and an `undefined` cluster id,
which makes the engine report an error). -/
def handleClusterClick (features : List Feature)
    (getExp : Option Nat → Option Rat) : List MapCmd :=
  match features with
  | [] => []
  | f :: _ =>
    match getExp f.clusterId with
    | none => []
    | some z => [MapCmd.easeTo f.coord z]

/-- C3: a click on a cluster marker eases the view (animated, never a hard
jump) to the cluster's coordinate at its expansion zoom when resolution
succeeds, and is a silent no-op (no command at all, in particular no
view-state change and no user-visible error) when there is no feature or
resolution fails. -/
theorem clusterClick_ease_or_silent_noop (features : List Feature)
    (getExp : Option Nat → Option Rat) :
    (features = [] → handleClusterClick features getExp = []) ∧
    (∀ f rest z, features = f :: rest → getExp f.clusterId = some z →
      handleClusterClick features getExp = [MapCmd.easeTo f.coord z]) ∧
    (∀ f rest, features = f :: rest → getExp f.clusterId = none →
      handleClusterClick features getExp = []) ∧
    (∀ c z, MapCmd.jumpTo c z ∉ handleClusterClick features getExp) ∧
    (∀ msg, MapCmd.showErrorToUser msg ∉ handleClusterClick features getExp) := by
  refine ⟨?_, ?_, ?_, ?_, ?_⟩
  · intro h; subst h; rfl
  · intro f rest z h hz; subst h; simp [handleClusterClick, hz]
  · intro f rest h hz; subst h; simp [handleClusterClick, hz]
  · intro c z hmem
    cases features with
    | nil => simp [handleClusterClick] at hmem
    | cons f rest =>
      cases hg : getExp f.clusterId <;> simp [handleClusterClick, hg] at hmem
  · intro msg hmem
    cases features with
    | nil => simp [handleClusterClick] at hmem
    | cons f rest =>
      cases hg : getExp f.clusterId <;> simp [handleClusterClick, hg] at hmem

/-- C3 witness: for a concrete cluster feature whose expansion zoom
resolves to 9, the handler issues exactly one animated ease to the
feature's coordinate at zoom 9; with a resolver that fails, it issues
nothing. -/
theorem clusterClick_ease_or_silent_noop_witness :
    handleClusterClick [⟨some 7, (3, 4), ⟨none, none, none, none, none⟩⟩]
      (fun i => if i == some 7 then some 9 else none)
      = [MapCmd.easeTo (3, 4) 9] ∧
    handleClusterClick [⟨some 7, (3, 4), ⟨none, none, none, none, none⟩⟩]
      (fun _ => none) = [] :=
  ⟨(clusterClick_ease_or_silent_noop
      [⟨some 7, (3, 4), ⟨none, none, none, none, none⟩⟩]
      (fun i => if i == some 7 then some 9 else none)).2.1
      ⟨some 7, (3, 4), ⟨none, none, none, none, none⟩⟩ [] 9 rfl (by decide),
   (clusterClick_ease_or_silent_noop
      [⟨some 7, (3, 4), ⟨none, none, none, none, none⟩⟩]
      (fun _ => none)).2.2.1
      ⟨some 7, (3, 4), ⟨none, none, none, none, none⟩⟩ [] rfl rfl⟩

/-- A popup instance live on the map: the identity of the popup object,
its anchor coordinate and its HTML content. `App.tsx` creates exactly one
managed popup object for hovering (`const popup = new mapboxgl.Popup(...)`)
and a fresh object per click. -/
structure PopupInst where
  pid : Nat
  anchor : Rat × Rat
  content : String
deriving DecidableEq, Repr

/-- The popups currently attached to the map. -/
abbrev LivePopups := List PopupInst

/-- The identity of the single managed hover popup object of `App.tsx`. -/
def hoverPopupId : Nat := 0

/-- Modelled from the spec: attaching a popup object to the map (the
engine's `addTo`) displays that object at most once — re-attaching the
same instance replaces its previous appearance rather than duplicating
it ("hover reuses one managed instance", §3). -/
def popupAddTo (p : PopupInst) (m : LivePopups) : LivePopups :=
  p :: m.filter (fun q => q.pid != p.pid)

/-- Detaching a popup object from the map (the engine's `remove`). -/
def popupRemoveFrom (pid : Nat) (m : LivePopups) : LivePopups :=
  m.filter (fun q => q.pid != pid)

/-- A hover event over the `unclustered-point` layer: `mouseenter` with
the features under the pointer, or `mouseleave`. -/
inductive HoverEvent where
  | enterPoint (features : List Feature)
  | leavePoint
deriving Repr

/-- The hover handlers of `App.tsx`: on `mouseenter` with at least one
feature, set the managed popup's anchor to the first feature's
coordinates and its HTML to the popup content and attach it to the map
(with no feature the handler returns); on `mouseleave`, remove the
managed popup. -/
def stepHover (m : LivePopups) (e : HoverEvent) : LivePopups :=
  match e with
  | .enterPoint [] => m
  | .enterPoint (f :: _) =>
      popupAddTo ⟨hoverPopupId, f.coord, popupContent f.props⟩ m
  | .leavePoint => popupRemoveFrom hoverPopupId m

/-- A sequence of hover events processed in order. -/
def runHover (m : LivePopups) (es : List HoverEvent) : LivePopups :=
  es.foldl stepHover m

/-- The number of live popups that are the managed hover popup. -/
def countHover (m : LivePopups) : Nat :=
  m.countP (fun q => q.pid == hoverPopupId)

/-- Hover popups among the live popups right after attaching an instance:
exactly the attached instance. -/
theorem filter_popupAddTo (p : PopupInst) (m : LivePopups) :
    (popupAddTo p m).filter (fun q => q.pid == p.pid) = [p] := by
  unfold popupAddTo
  rw [List.filter_cons]
  simp only [beq_self_eq_true, if_pos trivial, List.filter_filter]
  have : ∀ q ∈ m, ¬((q.pid == p.pid) && (q.pid != p.pid)) = true := by
    intro q _
    cases h : q.pid == p.pid <;> simp [bne, h]
  rw [List.filter_eq_nil_iff.mpr this]

/-- One hover event keeps at most one managed hover popup live. -/
theorem countHover_step_le (m : LivePopups) (e : HoverEvent)
    (h : countHover m ≤ 1) : countHover (stepHover m e) ≤ 1 := by
  cases e with
  | enterPoint fs =>
    cases fs with
    | nil => exact h
    | cons f rest =>
      show countHover (popupAddTo ⟨hoverPopupId, f.coord, popupContent f.props⟩ m) ≤ 1
      unfold countHover popupAddTo
      rw [List.countP_cons]
      simp only [beq_self_eq_true, if_pos trivial, List.countP_filter]
      have : (List.countP
          (fun q => (q.pid == hoverPopupId) && (q.pid != hoverPopupId)) m) = 0 := by
        apply List.countP_eq_zero.mpr
        intro q _
        cases hq : q.pid == hoverPopupId <;> simp [bne, hq]
      omega
  | leavePoint =>
    show countHover (popupRemoveFrom hoverPopupId m) ≤ 1
    unfold countHover popupRemoveFrom
    rw [List.countP_filter]
    have : (List.countP
        (fun q => (q.pid == hoverPopupId) && (q.pid != hoverPopupId)) m) = 0 := by
      apply List.countP_eq_zero.mpr
      intro q _
      cases hq : q.pid == hoverPopupId <;> simp [bne, hq]
    omega

/-- C4: at most one hover tooltip is ever live — any sequence of hover
events starting from a state with at most one live hover popup keeps at
most one live — and after entering a new point (with or without an
intervening leave) the live hover popups are exactly one popup anchored
at the most recently entered point with its content. -/
theorem hover_tooltip_exclusive (m : LivePopups) (es : List HoverEvent)
    (h : countHover m ≤ 1) :
    countHover (runHover m es) ≤ 1 ∧
    (∀ f fs, (runHover m (es ++ [HoverEvent.enterPoint (f :: fs)])).filter
        (fun q => q.pid == hoverPopupId)
      = [⟨hoverPopupId, f.coord, popupContent f.props⟩]) := by
  constructor
  · induction es generalizing m with
    | nil => exact h
    | cons e es ih => exact ih (stepHover m e) (countHover_step_le m e h)
  · intro f fs
    unfold runHover
    rw [List.foldl_append]
    exact filter_popupAddTo ⟨hoverPopupId, f.coord, popupContent f.props⟩ _

/-- C4 witness: hovering over point A and then point B with no leave event
in between, starting from an empty map, leaves exactly one live hover
tooltip, anchored at B. -/
theorem hover_tooltip_exclusive_witness :
    (runHover []
      ([HoverEvent.enterPoint [⟨none, (1, 1), ⟨some "A", none, none, none, none⟩⟩]] ++
        [HoverEvent.enterPoint [⟨none, (2, 2), ⟨some "B", none, none, none, none⟩⟩]])).filter
      (fun q => q.pid == hoverPopupId)
      = [⟨hoverPopupId, (2, 2), popupContent ⟨some "B", none, none, none, none⟩⟩] :=
  (hover_tooltip_exclusive []
    [HoverEvent.enterPoint [⟨none, (1, 1), ⟨some "A", none, none, none, none⟩⟩]]
    (by decide)).2 ⟨none, (2, 2), ⟨some "B", none, none, none, none⟩⟩ []

/-- The engine's `step` expression: the output is `base` below the first
stop and the output of the last stop whose input threshold was reached. -/
def stepExpr {α : Type} (input : Nat) (base : α) (stops : List (Nat × α)) : α :=
  match stops with
  | [] => base
  | (s, v) :: rest => if input < s then base else stepExpr input v rest

/-- The `circle-color` paint of the `clusters` layer:
`step(point_count, '#51bbd6', 100, '#f1f075', 750, '#f28cb1')`. -/
def clusterCircleColor (pointCount : Nat) : String :=
  stepExpr pointCount "#51bbd6" [(100, "#f1f075"), (750, "#f28cb1")]

/-- The `circle-radius` paint of the `clusters` layer:
`step(point_count, 20, 100, 30, 750, 40)`. -/
def clusterCircleRadius (pointCount : Nat) : Rat :=
  stepExpr pointCount 20 [(100, 30), (750, 40)]

/-- The engine's two-stop linear `interpolate` expression: clamped to the
first output below the first stop and to the second output above the
second stop, linear in between. -/
def interpolateLinear2 (x1 y1 x2 y2 x : Rat) : Rat :=
  if x ≤ x1 then y1
  else if x2 ≤ x then y2
  else y1 + (x - x1) / (x2 - x1) * (y2 - y1)

/-- The `circle-radius` paint of the `unclustered-point` layer:
`interpolate(linear, zoom, 10, 4, 15, 8)`. -/
def unclusteredPointRadius (zoom : Rat) : Rat :=
  interpolateLinear2 10 4 15 8 zoom

/-- The full circle paint of the `unclustered-point` layer: the constant
`circle-color` `'#11b4da'` together with the zoom-interpolated radius. -/
def unclusteredPointPaint (zoom : Rat) : String × Rat :=
  ("#11b4da", unclusteredPointRadius zoom)

/-- A two-stop `step` expression evaluates to a nested conditional on the
two thresholds. -/
theorem stepExpr_two_stops {α : Type} (n s1 s2 : Nat) (b v1 v2 : α) :
    stepExpr n b [(s1, v1), (s2, v2)] =
      if n < s1 then b else if n < s2 then v1 else v2 := by
  simp only [stepExpr]

/-- C5: the style resolver is a pure step function of the cluster count —
three colors with thresholds 100 and 750, radius 20px below 100, 30px on
[100, 750) and 40px from 750 on — and the individual point radius is the
linear interpolation between 4px at zoom 10 and 8px at zoom 15 with a
point color that does not depend on zoom. -/
theorem style_resolver_step_and_interpolate :
    (∀ n : Nat, n < 100 →
      clusterCircleColor n = "#51bbd6" ∧ clusterCircleRadius n = 20) ∧
    (∀ n : Nat, 100 ≤ n → n < 750 →
      clusterCircleColor n = "#f1f075" ∧ clusterCircleRadius n = 30) ∧
    (∀ n : Nat, 750 ≤ n →
      clusterCircleColor n = "#f28cb1" ∧ clusterCircleRadius n = 40) ∧
    (("#51bbd6" : String) ≠ "#f1f075" ∧ ("#51bbd6" : String) ≠ "#f28cb1" ∧
      ("#f1f075" : String) ≠ "#f28cb1") ∧
    unclusteredPointRadius 10 = 4 ∧ unclusteredPointRadius 15 = 8 ∧
    (∀ z : Rat, 10 ≤ z → z ≤ 15 →
      unclusteredPointRadius z = 4 + (z - 10) * (8 - 4) / (15 - 10)) ∧
    (∀ z z' : Rat, (unclusteredPointPaint z).1 = (unclusteredPointPaint z').1) := by
  refine ⟨?_, ?_, ?_, ⟨by decide, by decide, by decide⟩, ?_, ?_, ?_, fun z z' => rfl⟩
  · intro n h
    rw [clusterCircleColor, clusterCircleRadius, stepExpr_two_stops, stepExpr_two_stops]
    rw [if_pos h, if_pos h]
    exact ⟨rfl, rfl⟩
  · intro n h1 h2
    have h1' : ¬n < 100 := by omega
    rw [clusterCircleColor, clusterCircleRadius, stepExpr_two_stops, stepExpr_two_stops]
    rw [if_neg h1', if_neg h1', if_pos h2, if_pos h2]
    exact ⟨rfl, rfl⟩
  · intro n h
    have h1' : ¬n < 100 := by omega
    have h2' : ¬n < 750 := by omega
    rw [clusterCircleColor, clusterCircleRadius, stepExpr_two_stops, stepExpr_two_stops]
    rw [if_neg h1', if_neg h1', if_neg h2', if_neg h2']
    exact ⟨rfl, rfl⟩
  · norm_num [unclusteredPointRadius, interpolateLinear2]
  · norm_num [unclusteredPointRadius, interpolateLinear2]
  · intro z hz1 hz2
    rw [unclusteredPointRadius, interpolateLinear2]
    by_cases h1 : z ≤ 10
    · have hz : z = 10 := le_antisymm h1 hz1
      rw [if_pos h1, hz]
      norm_num
    · rw [if_neg h1]
      by_cases h2 : (15 : Rat) ≤ z
      · have hz : z = 15 := le_antisymm hz2 h2
        rw [if_pos h2, hz]
        norm_num
      · rw [if_neg h2]
        ring

/-- C5 witness: concrete evaluations — a cluster of 5 is small and light
blue at 20px, a cluster of 150 is 30px, a cluster of 1000 is 40px, and a
point at zoom 12 has the interpolated radius between the stops. -/
theorem style_resolver_step_and_interpolate_witness :
    clusterCircleColor 5 = "#51bbd6" ∧ clusterCircleRadius 150 = 30 ∧
    clusterCircleRadius 1000 = 40 ∧
    unclusteredPointRadius 12 = 4 + (12 - 10) * (8 - 4) / (15 - 10) :=
  ⟨(style_resolver_step_and_interpolate.1 5 (by norm_num)).1,
   (style_resolver_step_and_interpolate.2.1 150 (by norm_num) (by norm_num)).2,
   (style_resolver_step_and_interpolate.2.2.1 1000 (by norm_num)).2,
   style_resolver_step_and_interpolate.2.2.2.2.2.2.1 12 (by norm_num) (by norm_num)⟩

/-- A present, nonempty `name` property is displayed as is. -/
theorem displayName_of_present (p : Props) (s : String)
    (h : p.name = some s) (hs : s ≠ "") : displayName p = s := by
  simp [displayName, jsOrString, jsTruthy, h, hs]

/-- An absent or empty `name` property falls back to `Unknown Pharmacy`. -/
theorem displayName_of_absent (p : Props)
    (h : p.name = none ∨ p.name = some "") : displayName p = "Unknown Pharmacy" := by
  rcases h with h | h <;> simp [displayName, jsOrString, jsTruthy, h]

/-- A present, nonempty `full_address` property is displayed as is. -/
theorem displayAddress_of_full (p : Props) (s : String)
    (h : p.full_address = some s) (hs : s ≠ "") : displayAddress p = s := by
  simp [displayAddress, jsOrString, jsTruthy, h, hs]

/-- Without a usable `full_address`, a nonempty assembled
address/city/state string is displayed. -/
theorem displayAddress_of_assembled (p : Props)
    (h : p.full_address = none ∨ p.full_address = some "")
    (ha : assembledAddress p ≠ "") : displayAddress p = assembledAddress p := by
  rcases h with h | h <;> simp [displayAddress, jsOrString, jsTruthy, h, ha]

/-- Without a usable `full_address` and with nothing to assemble, the
address falls back to `Address not available`. -/
theorem displayAddress_of_nothing (p : Props)
    (h : p.full_address = none ∨ p.full_address = some "")
    (ha : assembledAddress p = "") : displayAddress p = "Address not available" := by
  rcases h with h | h <;> simp [displayAddress, jsOrString, jsTruthy, h, ha]

/-- C6: the popup content uses the fallback chain — the name when present
and nonempty, else `Unknown Pharmacy`; the `full_address` when present
and nonempty, else the present parts of address/city/state joined by a
comma and a space, else `Address not available` — and on the two concrete
records of the spec it renders `Unknown Pharmacy` with
`1 Main St, Springfield, OH`, respectively `Address not available`. -/
theorem popup_fallback_chain (p : Props) :
    (∀ s, p.name = some s → s ≠ "" → displayName p = s) ∧
    ((p.name = none ∨ p.name = some "") → displayName p = "Unknown Pharmacy") ∧
    (∀ s, p.full_address = some s → s ≠ "" → displayAddress p = s) ∧
    ((p.full_address = none ∨ p.full_address = some "") → assembledAddress p ≠ "" →
      displayAddress p = assembledAddress p) ∧
    ((p.full_address = none ∨ p.full_address = some "") → assembledAddress p = "" →
      displayAddress p = "Address not available") ∧
    displayName ⟨none, none, some "1 Main St", some "Springfield", some "OH"⟩
      = "Unknown Pharmacy" ∧
    displayAddress ⟨none, none, some "1 Main St", some "Springfield", some "OH"⟩
      = "1 Main St, Springfield, OH" ∧
    displayName ⟨some "", some "", some "", some "", some ""⟩ = "Unknown Pharmacy" ∧
    displayAddress ⟨some "", some "", some "", some "", some ""⟩
      = "Address not available" := by
  refine ⟨fun s h hs => displayName_of_present p s h hs,
    fun h => displayName_of_absent p h,
    fun s h hs => displayAddress_of_full p s h hs,
    fun h ha => displayAddress_of_assembled p h ha,
    fun h ha => displayAddress_of_nothing p h ha,
    rfl, rfl, rfl, rfl⟩

/-- C6 witness: a record with an explicit name and full address displays
both verbatim. -/
theorem popup_fallback_chain_witness :
    displayName ⟨some "CVS Pharmacy", some "12 Oak Ave", none, none, none⟩
        = "CVS Pharmacy" ∧
    displayAddress ⟨some "CVS Pharmacy", some "12 Oak Ave", none, none, none⟩
        = "12 Oak Ave" :=
  ⟨(popup_fallback_chain ⟨some "CVS Pharmacy", some "12 Oak Ave", none, none, none⟩).1
      "CVS Pharmacy" rfl (by decide),
   (popup_fallback_chain ⟨some "CVS Pharmacy", some "12 Oak Ave", none, none, none⟩).2.2.1
      "12 Oak Ave" rfl (by decide)⟩

/-- C10: the popup HTML is produced by direct string interpolation with no
escaping — a present, nonempty name or full address value appears
verbatim, markup included, between the literal template fragments of the
content string handed to the popup. -/
theorem popup_html_verbatim_interpolation (p : Props) :
    (∀ s, p.name = some s → s ≠ "" →
      popupContent p
        = htmlBeforeName ++ s ++ htmlBetween ++ displayAddress p ++ htmlAfterAddress) ∧
    (∀ t, p.full_address = some t → t ≠ "" →
      popupContent p
        = htmlBeforeName ++ displayName p ++ htmlBetween ++ t ++ htmlAfterAddress) := by
  constructor
  · intro s h hs
    rw [popupContent, popupContentFor, displayName_of_present p s h hs]
  · intro t h ht
    rw [popupContent, popupContentFor, displayAddress_of_full p t h ht]

/-- C10 witness: a name property holding raw markup is spliced verbatim
into the popup HTML, unescaped. -/
theorem popup_html_verbatim_interpolation_witness :
    popupContent ⟨some "<b onclick=evil()>X</b>", none, none, none, none⟩
      = htmlBeforeName ++ "<b onclick=evil()>X</b>" ++ htmlBetween ++
        displayAddress ⟨some "<b onclick=evil()>X</b>", none, none, none, none⟩ ++
        htmlAfterAddress :=
  (popup_html_verbatim_interpolation
    ⟨some "<b onclick=evil()>X</b>", none, none, none, none⟩).1
    "<b onclick=evil()>X</b>" rfl (by decide)

/-- The delay in milliseconds of the single dimension-check retry timer in
the mount effect of `MapView` (`setTimeout(..., 100)`). -/
def retryDelayMs : Nat := 100

/-- The dimension-check logic of the mount effect of `MapView`. `dims n`
is the host container's `(offsetWidth, offsetHeight)` at the `n`-th
check: check 0 runs synchronously at mount; if either dimension is zero a
single timer is scheduled and check 1 runs when it fires after
`retryDelayMs`; the timer is never rescheduled. The result is the index
of the check at which the map is initialized, if any. -/
def mapInitCheck (dims : Nat → Nat × Nat) : Option Nat :=
  if (dims 0).1 = 0 ∨ (dims 0).2 = 0 then
    if (dims 1).1 > 0 ∧ (dims 1).2 > 0 then some 1 else none
  else some 0

/-- A host surface that reports zero dimensions at the first two checks
and nonzero dimensions from the third check on. -/
def lateDims : Nat → Nat × Nat := fun n => if n ≤ 1 then (0, 0) else (300, 150)

/-- C7 counterexample: with a surface sized only from the third check on,
the mount logic never initializes the map even though the surface does
come to report nonzero dimensions — the retry does not continue until
dimensions become nonzero, so initialization is not guaranteed once they
do. -/
theorem retry_not_until_nonzero_counterexample :
    mapInitCheck lateDims = none ∧ (lateDims 2).1 > 0 ∧ (lateDims 2).2 > 0 := by
  decide

/-- C7 amended: when the host surface has zero dimensions at mount,
initialization is deferred and retried exactly once after a short bounded
delay of 100 ms; the map initializes exactly when the dimensions are
nonzero at mount or at that single retry check, any initialization
happens at one of the first two checks, and an initialization check that
succeeds saw nonzero dimensions. -/
theorem retry_single_bounded (dims : Nat → Nat × Nat) :
    retryDelayMs = 100 ∧
    ((mapInitCheck dims).isSome ↔
      (¬((dims 0).1 = 0 ∨ (dims 0).2 = 0) ∨ ((dims 1).1 > 0 ∧ (dims 1).2 > 0))) ∧
    (∀ n, mapInitCheck dims = some n → n ≤ 1 ∧ (dims n).1 > 0 ∧ (dims n).2 > 0) := by
  refine ⟨rfl, ?_, ?_⟩
  · by_cases h0 : (dims 0).1 = 0 ∨ (dims 0).2 = 0
    · by_cases h1 : (dims 1).1 > 0 ∧ (dims 1).2 > 0 <;>
        simp [mapInitCheck, h0, h1]
    · simp [mapInitCheck, h0]
  · intro n hn
    by_cases h0 : (dims 0).1 = 0 ∨ (dims 0).2 = 0
    · by_cases h1 : (dims 1).1 > 0 ∧ (dims 1).2 > 0
      · rw [mapInitCheck, if_pos h0, if_pos h1] at hn
        cases hn
        exact ⟨by omega, h1⟩
      · rw [mapInitCheck, if_pos h0, if_neg h1] at hn
        cases hn
    · rw [mapInitCheck, if_neg h0] at hn
      cases hn
      push_neg at h0
      exact ⟨by omega, Nat.pos_of_ne_zero h0.1, Nat.pos_of_ne_zero h0.2⟩

/-- C7 amended witness: a surface sized from the start initializes at
check 0, which saw nonzero dimensions. -/
theorem retry_single_bounded_witness :
    (0 : Nat) ≤ 1 ∧ (800 : Nat) > 0 ∧ (600 : Nat) > 0 :=
  (retry_single_bounded (fun _ => (800, 600))).2.2 0 (by decide)

/-- An effect a map lifecycle handler can perform: log lines, reloading a
GeoJSON source's data, re-adding a source or a layer, or surfacing an
error to the user. -/
inductive MapEffect where
  | logWarn (msg : String)
  | logInfo (msg : String)
  | reloadSource (sourceId : String)
  | addSourceEff (sourceId : String)
  | addLayerEff (layerId : String)
  | showErrorToUser (msg : String)
deriving DecidableEq, Repr

/-- Whether an effect re-adds a layer. -/
def isAddLayerEffect : MapEffect → Bool
  | MapEffect.addLayerEff _ => true
  | _ => false

/-- Whether an effect surfaces an error to the user. -/
def isUserErrorEffect : MapEffect → Bool
  | MapEffect.showErrorToUser _ => true
  | _ => false

/-- The `webglcontextlost` handler of `App.tsx`: it only logs a warning. -/
def onWebglContextLost : List MapEffect :=
  [MapEffect.logWarn "WebGL context lost"]

/-- The `webglcontextrestored` handler of `App.tsx`: log, fetch the
`pharmacies` source, and when it is present and has a `reload` method,
reload its data. -/
def onWebglContextRestored (hasSource reloadAvailable : Bool) : List MapEffect :=
  MapEffect.logInfo "WebGL context restored" ::
    (if hasSource && reloadAvailable then [MapEffect.reloadSource "pharmacies"] else [])

/-- C8 counterexample: neither the context-lost handler nor the
context-restored handler — even with the source present and reloadable —
re-adds any layer: recovery does not re-materialize the layers, it
assumes the layer state survived. -/
theorem contextloss_no_layer_rematerialization_counterexample :
    (onWebglContextRestored true true).any isAddLayerEffect = false ∧
    onWebglContextLost.any isAddLayerEffect = false := by
  decide

/-- C8 amended: on WebGL context loss the event is logged as a warning and
nothing else happens; on restore the event is logged and, exactly when
the pharmacies source is present and reloadable, its data is reloaded;
the layers are never re-created and neither handler surfaces an error to
the user. -/
theorem contextloss_logged_source_reloaded (hasSource reloadAvailable : Bool) :
    onWebglContextLost = [MapEffect.logWarn "WebGL context lost"] ∧
    MapEffect.logInfo "WebGL context restored"
      ∈ onWebglContextRestored hasSource reloadAvailable ∧
    (hasSource = true → reloadAvailable = true →
      MapEffect.reloadSource "pharmacies"
        ∈ onWebglContextRestored hasSource reloadAvailable) ∧
    ((hasSource = false ∨ reloadAvailable = false) →
      onWebglContextRestored hasSource reloadAvailable
        = [MapEffect.logInfo "WebGL context restored"]) ∧
    (onWebglContextRestored hasSource reloadAvailable).any isAddLayerEffect = false ∧
    (onWebglContextRestored hasSource reloadAvailable).any isUserErrorEffect = false ∧
    onWebglContextLost.any isUserErrorEffect = false := by
  cases hasSource <;> cases reloadAvailable <;> decide

/-- C8 amended witness: with the source present and reloadable the restore
handler does issue the reload of the pharmacies source. -/
theorem contextloss_logged_source_reloaded_witness :
    MapEffect.reloadSource "pharmacies" ∈ onWebglContextRestored true true :=
  (contextloss_logged_source_reloaded true true).2.2.1 rfl rfl

/-- What the `App` component renders: the full-screen missing-token
message, or the page with the `MapView` component mounted with the
token. -/
inductive AppView where
  | tokenErrorScreen (heading err hint : String)
  | mapView (mapboxToken : String)
deriving DecidableEq, Repr

/-- The `App` component of `App.tsx`: read
`import.meta.env.VITE_MAPBOX_ACCESS_TOKEN`; when it is falsy (unset, or
empty) return the full-screen error markup and never reach the `MapView`
branch; otherwise mount `MapView` with the token. -/
def renderApp (envToken : Option String) : AppView :=
  if jsTruthy envToken then AppView.mapView (envToken.getD "")
  else
    AppView.tokenErrorScreen "PharmAccess Explorer"
      "Error: VITE_MAPBOX_ACCESS_TOKEN environment variable is not set."
      "Please create a .env file with: VITE_MAPBOX_ACCESS_TOKEN=your_token_here"

/-- C9: with the required environment token absent (or empty), the app
renders the clear full-screen message naming the missing variable and
does not mount the map component — the renderer is never initialized —
while a present nonempty token mounts the map; rendering is a pure
function of the environment, so nothing retries the missing-token
condition. -/
theorem missing_token_error_screen (envToken : Option String) :
    ((envToken = none ∨ envToken = some "") →
      renderApp envToken
        = AppView.tokenErrorScreen "PharmAccess Explorer"
            "Error: VITE_MAPBOX_ACCESS_TOKEN environment variable is not set."
            "Please create a .env file with: VITE_MAPBOX_ACCESS_TOKEN=your_token_here" ∧
      ∀ t, renderApp envToken ≠ AppView.mapView t) ∧
    (∀ s, envToken = some s → s ≠ "" → renderApp envToken = AppView.mapView s) := by
  constructor
  · intro h
    rcases h with h | h <;> subst h <;> exact ⟨rfl, fun t => by simp [renderApp, jsTruthy]⟩
  · intro s h hs
    subst h
    simp [renderApp, jsTruthy, hs]

/-- C9 witness: with no token in the environment the app renders the
full-screen error screen. -/
theorem missing_token_error_screen_witness :
    renderApp none
      = AppView.tokenErrorScreen "PharmAccess Explorer"
          "Error: VITE_MAPBOX_ACCESS_TOKEN environment variable is not set."
          "Please create a .env file with: VITE_MAPBOX_ACCESS_TOKEN=your_token_here" :=
  ((missing_token_error_screen none).1 (Or.inl rfl)).1

end PharmAccess
